import Mathlib

/-!
Verification development for the DeviantArt downloader (src/downloader.py).

The Python program is embedded shallowly: each function of the source that the
properties mention is translated into an executable Lean definition, with the
outside world (HTTP responses, the token-exchange endpoint, collaborator
services) supplied as explicit oracles, and the side effects the properties
talk about (requests made, sleeps performed, ledger rows written, files
written) collected into explicit result structures.
-/

namespace Downloader

/-! ## Rate-limited transport: deviantart_get (downloader.py lines 130-163)

One HTTP attempt either yields a response with a status code and a parsed
body, or raises a transport-level exception (requests' HTTPError or
RequestException). `requests.Response.ok` is `status_code < 400`. -/

/-- Outcome of one HTTP attempt, as seen by the `try` block of
`deviantart_get`: a response with a status code and (when the code is a
success) a parsed JSON body, or a transport exception. -/
inductive HttpOutcome (α : Type) where
  | resp (code : Nat) (body : α)
  | exc
deriving Repr, DecidableEq

/-- Whether an attempt outcome makes `deviantart_get` return: a response with
`r.ok` true, i.e. status code below 400 (429 and 401 are both at least 400,
so they are never successes). -/
def HttpOutcome.isSuccess : HttpOutcome α → Bool
  | .resp code _ => decide (code < 400)
  | .exc => false

/-- Instrumented result of one `deviantart_get` call. `attempts` counts HTTP
requests made; `tokens` lists the bearer token used on each attempt in order;
`refreshCount` counts calls to `get_access_token`; `sleeps` lists the slept
durations in order; `result` is what the Python call produces: the parsed body
of the first successful response, or the final RuntimeError message.
`finalToken` is the value of the function's LOCAL variable `token` when the
call ends; the Python function returns only `r.json()`, never the token, so
`finalToken` is not visible to the caller. -/
structure GetResult (α : Type) where
  attempts : Nat
  tokens : List Nat
  refreshCount : Nat
  sleeps : List Nat
  result : Except String α
  finalToken : Nat
deriving Repr

/-- The message of the RuntimeError raised when the retry loop exhausts:
Python's f-string "Failed after {MAX_RETRIES} retries: {url}". -/
def dgFailMsg (maxRetries : Nat) (url : String) : String :=
  "Failed after " ++ toString maxRetries ++ " retries: " ++ url

/-- The `while retries < MAX_RETRIES` loop of `deviantart_get`, with
`fuel = MAX_RETRIES - retries` iterations remaining. Every iteration makes
exactly one request; `O retries` is its outcome (every branch of the loop body
either returns or increments `retries` by one, so the attempt index equals
`retries`). `R n` is the token returned by the (n+1)-th `get_access_token`
call. Branches, in the source's order: status 429 sleeps
`RATE_LIMIT_SLEEP * (retries + 1)` and retries; status 401 refreshes the local
token and retries with no sleep; any other non-ok status (at least 400) sleeps
`SLEEP_TIME` and retries; an ok status returns the parsed body; a transport
exception sleeps `SLEEP_TIME` and retries. -/
def dgGo (O : Nat → HttpOutcome α) (R : Nat → Nat) (url : String)
    (maxRetries rls st : Nat) : Nat → Nat → Nat → Nat → GetResult α
  | 0, _retries, nref, tok =>
      ⟨0, [], nref, [], .error (dgFailMsg maxRetries url), tok⟩
  | fuel + 1, retries, nref, tok =>
      match O retries with
      | .resp code body =>
        if code = 429 then
          let r := dgGo O R url maxRetries rls st fuel (retries + 1) nref tok
          ⟨r.attempts + 1, tok :: r.tokens, r.refreshCount,
            rls * (retries + 1) :: r.sleeps, r.result, r.finalToken⟩
        else if code = 401 then
          let r := dgGo O R url maxRetries rls st fuel (retries + 1) (nref + 1) (R nref)
          ⟨r.attempts + 1, tok :: r.tokens, r.refreshCount, r.sleeps,
            r.result, r.finalToken⟩
        else if code < 400 then
          ⟨1, [tok], nref, [], .ok body, tok⟩
        else
          let r := dgGo O R url maxRetries rls st fuel (retries + 1) nref tok
          ⟨r.attempts + 1, tok :: r.tokens, r.refreshCount, st :: r.sleeps,
            r.result, r.finalToken⟩
      | .exc =>
          let r := dgGo O R url maxRetries rls st fuel (retries + 1) nref tok
          ⟨r.attempts + 1, tok :: r.tokens, r.refreshCount, st :: r.sleeps,
            r.result, r.finalToken⟩

/-- `deviantart_get(url, token, params)`: run the retry loop from
`retries = 0` with the caller-supplied token. `maxRetries`, `rls` and `st` are
the MAX_RETRIES, RATE_LIMIT_SLEEP and SLEEP_TIME configuration values. The
value the Python caller receives is `result` alone. -/
def deviantartGet (O : Nat → HttpOutcome α) (R : Nat → Nat) (url : String)
    (maxRetries rls st : Nat) (token : Nat) : GetResult α :=
  dgGo O R url maxRetries rls st maxRetries 0 0 token

/-- The caller's token variable after a `deviantart_get` call: `main` (line
321) and `get_followed_artists` (line 190) bind `token` once and never
reassign it, and `deviantart_get` returns only the parsed body, so the
caller's token after the call is exactly the token it passed in. -/
def callerTokenAfter (token : Nat) (_r : GetResult α) : Nat := token

/-! ## Item ledger: the sqlite downloads table (downloader.py lines 80-109)

A row of the `downloads` table; the database is the list of rows in insertion
order, `deviationid` being the primary key. `INSERT OR IGNORE` inserts the row
unless a row with the same primary key already exists, in which case it does
nothing. -/

/-- One row of the `downloads` table. `tags` is the newline-joined tag list;
`is_premium` is the integer flag column (0 or 1). -/
structure Row where
  deviationid : String
  artist : String
  title : String
  url : Option String
  tags : String
  is_premium : Nat
deriving Repr, DecidableEq

/-- The downloads table: rows in insertion order. -/
abbrev Ledger := List Row

/-- `INSERT OR IGNORE`: a no-op when a row with the same `deviationid`
primary key exists, otherwise append the row. -/
def insertOrIgnore (db : Ledger) (row : Row) : Ledger :=
  if db.any (fun r => r.deviationid == row.deviationid) then db else db ++ [row]

/-- `is_downloaded(deviation_id)`: whether any row with this id exists. -/
def is_downloaded (db : Ledger) (deviation_id : String) : Bool :=
  db.any (fun r => r.deviationid == deviation_id)

/-- `mark_subscription(deviation_id, artist, title, url)`: INSERT OR IGNORE a
row with empty tags and `is_premium = 1`. -/
def mark_subscription (db : Ledger) (deviation_id artist title : String)
    (url : Option String) : Ledger :=
  insertOrIgnore db ⟨deviation_id, artist, title, url, "", 1⟩

/-- `is_subscription(deviation_id)`: the row exists and its `is_premium`
column equals 1. -/
def is_subscription (db : Ledger) (deviation_id : String) : Bool :=
  match db.find? (fun r => r.deviationid == deviation_id) with
  | some r => r.is_premium == 1
  | none => false

/-- `mark_downloaded(deviation_id, artist, title, url, tags)`: INSERT OR
IGNORE a row with newline-joined tags; `is_premium` takes the column default
0. -/
def mark_downloaded (db : Ledger) (deviation_id artist title : String)
    (url : Option String) (tags : List String) : Ledger :=
  insertOrIgnore db ⟨deviation_id, artist, title, url, String.intercalate "\n" tags, 0⟩

/-- A call to one of the two ledger-insert helpers, with its field values
(the identifier is supplied separately so two calls can share it). -/
inductive LedgerOp where
  | recordRestricted (artist title : String) (url : Option String)
  | recordDownloaded (artist title : String) (url : Option String) (tags : List String)
deriving Repr

/-- The row an insert helper would write for a given identifier. -/
def opRow (deviation_id : String) : LedgerOp → Row
  | .recordRestricted a t u => ⟨deviation_id, a, t, u, "", 1⟩
  | .recordDownloaded a t u tags =>
      ⟨deviation_id, a, t, u, String.intercalate "\n" tags, 0⟩

/-- Apply one insert helper to the database. -/
def applyOp (db : Ledger) (deviation_id : String) : LedgerOp → Ledger
  | .recordRestricted a t u => mark_subscription db deviation_id a t u
  | .recordDownloaded a t u tags => mark_downloaded db deviation_id a t u tags

/-! ## Item processor: save_deviation (downloader.py lines 211-314) -/

/-- The fields of a gallery item payload that `save_deviation` reads.
`premium_content` and `premium_folder_data` model the truthiness of those
keys; `is_downloadable` is present-or-absent and, when present, a boolean
(the source tests `deviation.get("is_downloadable") is False`); `content`
models the fetchable content reference: `some src` when the content payload
is a non-empty dict with a truthy `src` entry, `none` when the content
payload is absent or empty or carries no `src` (in the source these all make
`not content or not content.get("src")` true, and with no `src` the asset
fetch cannot succeed). -/
structure Deviation where
  deviationid : String
  title : Option String
  url : Option String
  premium_content : Bool
  premium_folder_data : Bool
  is_downloadable : Option Bool
  content : Option String
deriving Repr, DecidableEq

/-- The observable effects of one `save_deviation` call: the updated ledger,
whether the metadata transport call was made, whether the sidecar text file
was written, whether the asset file was written (the `requests.get` of
`content["src"]` succeeded and its body was saved), and whether the tagger
collaborator was invoked. -/
structure SaveResult where
  db : Ledger
  metadataFetched : Bool
  sidecarWritten : Bool
  assetWritten : Bool
  taggerCalled : Bool
deriving Repr

/-- `save_deviation(token, artist, deviation)`. `downloadSubs` is the
DOWNLOAD_SUBSCRIPTIONS flag; `metaTags` is the outcome of the metadata fetch
(`.error` models the exception path, which degrades to an empty tag list);
`assetOk` is whether the unauthenticated asset fetch would succeed. Control
flow from the source: a known subscription returns at once; a known download
returns at once; otherwise classify `is_premium`, and when premium always
`mark_subscription` first and return unless DOWNLOAD_SUBSCRIPTIONS; the
remaining path fetches metadata, writes the sidecar, attempts the asset
fetch inside a try (a missing `content["src"]` raises a caught KeyError, so
the asset is never written without a content reference), invokes the tagger
inside a try, and finally calls `mark_downloaded`. -/
def saveDeviation (downloadSubs : Bool) (metaTags : Except Unit (List String))
    (assetOk : Bool) (db : Ledger) (artist : String) (d : Deviation) : SaveResult :=
  let id := d.deviationid
  let title := d.title.getD "untitled"
  if is_subscription db id then ⟨db, false, false, false, false⟩
  else if is_downloaded db id then ⟨db, false, false, false, false⟩
  else
    let isPremium := d.premium_content || d.premium_folder_data
      || d.is_downloadable == some false || d.content == none
    let db1 := if isPremium then mark_subscription db id artist title d.url else db
    if isPremium && !downloadSubs then ⟨db1, false, false, false, false⟩
    else
      let tags := match metaTags with | .ok ts => ts | .error _ => []
      let db2 := mark_downloaded db1 id artist title d.url tags
      ⟨db2, true, true, assetOk && d.content.isSome, true⟩

/-! ## Pagination walkers (downloader.py lines 190-206 and 336-355)

A page response, as the walkers read it: `results` is the batch
(`data.get('results', [])` / `data.get("results", [])`), `has_more` the
truthiness of `data.get('has_more')`, `next_offset` the value of
`data.get('next_offset', 0)`. The environment is a function from the request
index (0-based, in request order) and the offset sent with the request to the
page returned. Both loops are
modelled with explicit fuel since the source's `while` loops have no a-priori
bound; every property proved below concerns runs within the fuel. Each result
pairs the collected/processed batches with the number of requests made. -/

structure Page (β : Type) where
  results : List β
  has_more : Bool
  next_offset : Nat
deriving Repr

/-- The `while True` loop of `get_followed_artists`: request a page, extend
the artist list with the batch, stop when `has_more` is falsy, otherwise take
the server-supplied `next_offset`, sleep, and request again. Note the source
has NO empty-batch check here. Returns the collected names and the request
count. -/
def gfaGo (pages : Nat → Nat → Page β) : Nat → Nat → Nat → List β × Nat
  | 0, _k, _off => ([], 0)
  | fuel + 1, k, off =>
      let d := pages k off
      if d.has_more = false then (d.results, 1)
      else
        let r := gfaGo pages fuel (k + 1) d.next_offset
        (d.results ++ r.1, r.2 + 1)

/-- `get_followed_artists(token)`: walk from offset 0. -/
def getFollowedArtists (pages : Nat → Nat → Page β) (fuel : Nat) : List β × Nat :=
  gfaGo pages fuel 0 0

/-- The per-creator gallery loop in `main`: `while has_more`, request a page;
an empty batch breaks out at once; otherwise every item of the batch is
processed, `has_more` and `current_offset` are taken from the response, and
progress is saved. Returns the processed items and the request count. -/
def galleryGo (pages : Nat → Nat → Page β) : Nat → Nat → Nat → List β × Nat
  | 0, _k, _off => ([], 0)
  | fuel + 1, k, off =>
      let d := pages k off
      if d.results.isEmpty then ([], 1)
      else if d.has_more = false then (d.results, 1)
      else
        let r := galleryGo pages fuel (k + 1) d.next_offset
        (d.results ++ r.1, r.2 + 1)

/-! ## Run controller: main (downloader.py lines 320-364) -/

/-- The creator loop of `main`:
`for idx, artist in enumerate(artists[start_artist_idx:], start=start_artist_idx)`,
where each iteration opens the gallery walk of `artist` at
`offset_to_use = start_offset if idx == start_artist_idx else 0`, the whole
per-creator body runs inside `try ... except Exception` (so a failing walk is
logged and the loop continues with the next creator), and `start_offset = 0`
runs at the end of the try body, i.e. only when the walk did not raise.
`fails idx` says whether the walk of the creator at index `idx` raises.
Returns, in order, each processed creator as (index, name, starting offset of
its item walk). -/
def mainLoopGo (fails : Nat → Bool) (ci : Nat) :
    List String → Nat → Nat → List (Nat × String × Nat)
  | [], _idx, _off => []
  | a :: rest, idx, off =>
      (idx, a, if idx = ci then off else 0) ::
        mainLoopGo fails ci rest (idx + 1) (if fails idx then off else 0)

/-- The creator loop of `main` started from a loaded checkpoint
`(ci, off)` = (last_artist_index, last_offset): Python's
`artists[start_artist_idx:]` with `enumerate(..., start=start_artist_idx)`. -/
def mainWalks (artists : List String) (fails : Nat → Bool) (ci off : Nat) :
    List (Nat × String × Nat) :=
  mainLoopGo fails ci (artists.drop ci) ci off

/-- `main` down to the creator loop: `get_access_token()` runs first and its
failure propagates (nothing catches it); `get_followed_artists(token)` runs
second and its failure propagates too; only then does the creator loop run,
inside which every per-creator exception is caught. `tokenR` and `artistsR`
are the outcomes of those two calls. -/
def mainRun (tokenR : Except Unit Nat) (artistsR : Except Unit (List String))
    (fails : Nat → Bool) (ci off : Nat) :
    Except Unit (List (Nat × String × Nat)) :=
  match tokenR with
  | .error e => .error e
  | .ok _tok =>
      match artistsR with
      | .error e => .error e
      | .ok artists => .ok (mainWalks artists fails ci off)

/-! ## Database setup: init_db (downloader.py lines 46-78) -/

/-- The two sqlite3.OperationalError shapes the migration can meet: `ALTER
TABLE downloads` on a missing table raises "no such table: downloads", and
adding an existing column raises "duplicate column name: is_premium"; the
source distinguishes them by the substring "duplicate column name". -/
inductive SqlError where
  | noSuchTable
  | duplicateColumn
deriving Repr, DecidableEq

/-- The schema state of the sqlite file: whether the `downloads` table exists,
and whether it has the `is_premium` column. -/
structure DbState where
  tableExists : Bool
  hasPremiumColumn : Bool
deriving Repr, DecidableEq

/-- `ALTER TABLE downloads ADD COLUMN is_premium ...`: fails with
`noSuchTable` when the table is missing, with `duplicateColumn` when the
column is already there, and otherwise adds the column. -/
def alterAddIsPremium (s : DbState) : Except SqlError DbState :=
  if s.tableExists = false then .error .noSuchTable
  else if s.hasPremiumColumn then .error .duplicateColumn
  else .ok ⟨true, true⟩

/-- `add_is_premium_column_if_missing(conn)`: run the ALTER; a
duplicate-column OperationalError is swallowed, any other OperationalError is
logged and re-raised. -/
def add_is_premium_column_if_missing (s : DbState) : Except SqlError DbState :=
  match alterAddIsPremium s with
  | .ok s2 => .ok s2
  | .error .duplicateColumn => .ok s
  | .error e => .error e

/-- `CREATE TABLE IF NOT EXISTS downloads (...)`: a no-op when the table
exists; a freshly created table carries the `is_premium` column (it is in the
CREATE statement). -/
def createDownloadsTable (s : DbState) : DbState :=
  if s.tableExists then s else ⟨true, true⟩

/-- `init_db()`: runs `add_is_premium_column_if_missing` FIRST and only then
`CREATE TABLE IF NOT EXISTS`. -/
def init_db (s : DbState) : Except SqlError DbState :=
  (add_is_premium_column_if_missing s).map createDownloadsTable

/-! ## Lemmas about the retry loop -/

theorem dgGo_attempts_le (O : Nat → HttpOutcome α) (R : Nat → Nat) (url : String)
    (M rls st : Nat) :
    ∀ fuel retries nref tok,
      (dgGo O R url M rls st fuel retries nref tok).attempts ≤ fuel := by
  intro fuel
  induction fuel with
  | zero => intro retries nref tok; simp [dgGo]
  | succ n ih =>
      intro retries nref tok
      cases hO : O retries with
      | resp code body =>
          simp only [dgGo, hO]
          by_cases h429 : code = 429
          · rw [if_pos h429]
            exact Nat.succ_le_succ (ih _ _ _)
          · rw [if_neg h429]
            by_cases h401 : code = 401
            · rw [if_pos h401]
              exact Nat.succ_le_succ (ih _ _ _)
            · rw [if_neg h401]
              by_cases hok : code < 400
              · rw [if_pos hok]
                exact Nat.succ_le_succ (Nat.zero_le n)
              · rw [if_neg hok]
                exact Nat.succ_le_succ (ih _ _ _)
      | exc =>
          simp only [dgGo, hO]
          exact Nat.succ_le_succ (ih _ _ _)

theorem dgGo_no_success (O : Nat → HttpOutcome α) (R : Nat → Nat) (url : String)
    (M rls st : Nat) :
    ∀ fuel retries nref tok,
      (∀ i, retries ≤ i → i < retries + fuel → (O i).isSuccess = false) →
      (dgGo O R url M rls st fuel retries nref tok).result
          = .error (dgFailMsg M url) ∧
        (dgGo O R url M rls st fuel retries nref tok).attempts = fuel := by
  intro fuel
  induction fuel with
  | zero => intro retries nref tok _h; exact ⟨rfl, rfl⟩
  | succ n ih =>
      intro retries nref tok h
      have hcur : (O retries).isSuccess = false :=
        h retries (Nat.le_refl _) (by omega)
      have hnext : ∀ i, retries + 1 ≤ i → i < retries + 1 + n →
          (O i).isSuccess = false := by
        intro i h1 h2; exact h i (by omega) (by omega)
      cases hO : O retries with
      | resp code body =>
          have hge : ¬ code < 400 := by
            intro hlt
            rw [hO] at hcur
            simp [HttpOutcome.isSuccess, hlt] at hcur
          obtain ⟨ihr, iha⟩ := ih (retries + 1) nref tok hnext
          obtain ⟨ihr2, iha2⟩ := ih (retries + 1) (nref + 1) (R nref) hnext
          simp only [dgGo, hO]
          by_cases h429 : code = 429
          · rw [if_pos h429]
            exact ⟨ihr, by simp [iha]⟩
          · rw [if_neg h429]
            by_cases h401 : code = 401
            · rw [if_pos h401]
              exact ⟨ihr2, by simp [iha2]⟩
            · rw [if_neg h401, if_neg hge]
              exact ⟨ihr, by simp [iha]⟩
      | exc =>
          obtain ⟨ihr, iha⟩ := ih (retries + 1) nref tok hnext
          simp only [dgGo, hO]
          exact ⟨ihr, by simp [iha]⟩

theorem dgGo_first_success (O : Nat → HttpOutcome α) (R : Nat → Nat) (url : String)
    (M rls st : Nat) :
    ∀ fuel retries nref tok i code body,
      retries ≤ i → i < retries + fuel →
      O i = .resp code body → code < 400 →
      (∀ j, retries ≤ j → j < i → (O j).isSuccess = false) →
      (dgGo O R url M rls st fuel retries nref tok).result = .ok body ∧
        (dgGo O R url M rls st fuel retries nref tok).attempts = i - retries + 1 := by
  intro fuel
  induction fuel with
  | zero => intro retries nref tok i code body h1 h2 _ _ _; omega
  | succ n ih =>
      intro retries nref tok i code body h1 h2 hOi hcode hmin
      rcases Nat.eq_or_lt_of_le h1 with heq | hlt
      · subst heq
        have hne429 : ¬ code = 429 := by omega
        have hne401 : ¬ code = 401 := by omega
        simp only [dgGo, hOi]
        rw [if_neg hne429, if_neg hne401, if_pos hcode]
        exact ⟨rfl, by simp⟩
      · have hcur : (O retries).isSuccess = false :=
          hmin retries (Nat.le_refl _) hlt
        have hnext : ∀ j, retries + 1 ≤ j → j < i → (O j).isSuccess = false := by
          intro j hj1 hj2; exact hmin j (by omega) hj2
        have step : ∀ nref2 tok2,
            (dgGo O R url M rls st n (retries + 1) nref2 tok2).result = .ok body ∧
              (dgGo O R url M rls st n (retries + 1) nref2 tok2).attempts
                = i - (retries + 1) + 1 :=
          fun nref2 tok2 =>
            ih (retries + 1) nref2 tok2 i code body hlt (by omega) hOi hcode hnext
        cases hO : O retries with
        | resp c b =>
            have hge : ¬ c < 400 := by
              intro h400
              rw [hO] at hcur
              simp [HttpOutcome.isSuccess, h400] at hcur
            simp only [dgGo, hO]
            by_cases h429 : c = 429
            · rw [if_pos h429]
              refine ⟨(step nref tok).1, ?_⟩
              have ha := (step nref tok).2
              simp only [ha]; omega
            · rw [if_neg h429]
              by_cases h401 : c = 401
              · rw [if_pos h401]
                refine ⟨(step (nref + 1) (R nref)).1, ?_⟩
                have ha := (step (nref + 1) (R nref)).2
                simp only [ha]; omega
              · rw [if_neg h401, if_neg hge]
                refine ⟨(step nref tok).1, ?_⟩
                have ha := (step nref tok).2
                simp only [ha]; omega
        | exc =>
            simp only [dgGo, hO]
            refine ⟨(step nref tok).1, ?_⟩
            have ha := (step nref tok).2
            simp only [ha]; omega

theorem dgGo_all429 (R : Nat → Nat) (url : String) (M rls st : Nat) (b : Nat) :
    ∀ fuel retries nref tok,
      (dgGo (fun _ => HttpOutcome.resp 429 b) R url M rls st fuel retries nref tok).result
          = .error (dgFailMsg M url) ∧
        (dgGo (fun _ => HttpOutcome.resp 429 b) R url M rls st fuel retries nref tok).attempts
          = fuel ∧
        (dgGo (fun _ => HttpOutcome.resp 429 b) R url M rls st fuel retries nref tok).sleeps.length
          = fuel ∧
        ∀ k, k < fuel →
          (dgGo (fun _ => HttpOutcome.resp 429 b) R url M rls st fuel retries nref tok).sleeps[k]?
            = some (rls * (retries + 1 + k)) := by
  intro fuel
  induction fuel with
  | zero =>
      intro retries nref tok
      exact ⟨rfl, rfl, rfl, fun k hk => absurd hk (Nat.not_lt_zero k)⟩
  | succ n ih =>
      intro retries nref tok
      obtain ⟨ihr, iha, ihl, ihs⟩ := ih (retries + 1) nref tok
      simp only [dgGo, if_pos rfl]
      refine ⟨ihr, by simp [iha], by simp [ihl], ?_⟩
      intro k hk
      cases k with
      | zero => simp
      | succ m =>
          have hm : m < n := by omega
          have hms := ihs m hm
          have harith : retries + 1 + 1 + m = retries + 1 + (m + 1) := by omega
          rw [harith] at hms
          simpa using hms

/-! ## C2: retry/backoff termination -/

/-- C2: a deviantart_get call whose every HTTP attempt returns status 429 is
attempted exactly MAX_RETRIES times and then fails with the retry-exhausted
RuntimeError naming the URL. Numbering the requests from 0 (the initial
request is attempt 0), the k-th slept wait in order is
RATE_LIMIT_SLEEP * (k + 1), and it precedes attempt k + 1: the wait slept
before attempt k equals RATE_LIMIT_SLEEP * k for every retried attempt k
(the last sleep, RATE_LIMIT_SLEEP * MAX_RETRIES, precedes the raise). -/
theorem retry_backoff_termination (R : Nat → Nat) (url : String)
    (M rls st tok b : Nat) :
    (deviantartGet (fun _ => HttpOutcome.resp 429 b) R url M rls st tok).attempts = M ∧
    (deviantartGet (fun _ => HttpOutcome.resp 429 b) R url M rls st tok).result
        = .error (dgFailMsg M url) ∧
    (deviantartGet (fun _ => HttpOutcome.resp 429 b) R url M rls st tok).sleeps.length = M ∧
    (∀ k, k < M →
      (deviantartGet (fun _ => HttpOutcome.resp 429 b) R url M rls st tok).sleeps[k]?
        = some (rls * (k + 1))) ∧
    (∀ k, 1 ≤ k → k < M →
      (deviantartGet (fun _ => HttpOutcome.resp 429 b) R url M rls st tok).sleeps[k - 1]?
        = some (rls * k)) := by
  obtain ⟨hr, ha, hl, hs⟩ := dgGo_all429 R url M rls st b M 0 0 tok
  refine ⟨ha, hr, hl, ?_, ?_⟩
  · intro k hk
    have h := hs k hk
    have harith : 0 + 1 + k = k + 1 := by omega
    rw [harith] at h
    exact h
  · intro k h1 hk
    have h := hs (k - 1) (by omega)
    have harith : 0 + 1 + (k - 1) = k := by omega
    rw [harith] at h
    exact h

/-- Witness for C2 at MAX_RETRIES = 3, RATE_LIMIT_SLEEP = 7: three attempts,
and the sleep at index 1 is 14. -/
theorem retry_backoff_termination_witness :
    (deviantartGet (fun _ => HttpOutcome.resp 429 0) (fun n => n) "u" 3 7 1 5).attempts = 3 ∧
    (deviantartGet (fun _ => HttpOutcome.resp 429 0) (fun n => n) "u" 3 7 1 5).sleeps[1]?
      = some (7 * 2) :=
  ⟨(retry_backoff_termination (fun n => n) "u" 3 7 1 5 0).1,
   (retry_backoff_termination (fun n => n) "u" 3 7 1 5 0).2.2.2.1 1 (by decide)⟩

/-! ## C10: bounded attempts and termination of the transport -/

/-- C10: for every sequence of HTTP outcomes, deviantart_get makes at most
MAX_RETRIES request attempts and terminates (the loop always runs within the
fuel MAX_RETRIES, every non-success outcome — 429, 401, other statuses,
exceptions — incrementing the single retry counter); when no attempt within
MAX_RETRIES succeeds it raises the retry-exhausted error after exactly
MAX_RETRIES attempts, and when attempt i is the first success it returns that
attempt's parsed body after exactly i + 1 attempts. -/
theorem transport_bounded_attempts {α : Type} (O : Nat → HttpOutcome α)
    (R : Nat → Nat) (url : String) (M rls st tok : Nat) :
    (deviantartGet O R url M rls st tok).attempts ≤ M ∧
    ((∀ i, i < M → (O i).isSuccess = false) →
      (deviantartGet O R url M rls st tok).result = .error (dgFailMsg M url) ∧
      (deviantartGet O R url M rls st tok).attempts = M) ∧
    (∀ i code body, i < M → O i = HttpOutcome.resp code body → code < 400 →
      (∀ j, j < i → (O j).isSuccess = false) →
      (deviantartGet O R url M rls st tok).result = .ok body ∧
      (deviantartGet O R url M rls st tok).attempts = i + 1) := by
  refine ⟨dgGo_attempts_le O R url M rls st M 0 0 tok, ?_, ?_⟩
  · intro h
    exact dgGo_no_success O R url M rls st M 0 0 tok (fun i _ h2 => h i (by omega))
  · intro i code body hi hOi hcode hmin
    have h := dgGo_first_success O R url M rls st M 0 0 tok i code body
      (Nat.zero_le i) (by omega) hOi hcode (fun j _ h2 => hmin j h2)
    simpa using h

/-- The outcome sequence for C10's witness: the first attempt raises a
transport exception, the second succeeds with status 200 and body 42. -/
def boundedScenario : Nat → HttpOutcome Nat :=
  fun i => if i = 1 then HttpOutcome.resp 200 42 else HttpOutcome.exc

/-- Witness for C10: with an exception then a success, the call returns the
body of the first successful attempt after exactly two attempts. -/
theorem transport_bounded_attempts_witness :
    (deviantartGet boundedScenario (fun n => n) "u" 5 30 1 7).result = .ok 42 ∧
    (deviantartGet boundedScenario (fun n => n) "u" 5 30 1 7).attempts = 1 + 1 :=
  (transport_bounded_attempts boundedScenario (fun n => n) "u" 5 30 1 7).2.2
    1 200 42 (by decide) (by decide) (by decide) (by decide)

/-! ## C1: token refresh -/

/-- The outcome sequence of the token-refresh scenario: the first attempt
returns status 401, the second succeeds with body 7. -/
def refreshOutcomes : Nat → HttpOutcome Nat :=
  fun i => if i = 0 then HttpOutcome.resp 401 0 else HttpOutcome.resp 200 7

/-- The token returned by get_access_token in the scenario: 99, distinct from
the caller's token 5. -/
def refreshedToken : Nat → Nat := fun _ => 99

/-- The first transport call of the scenario, issued with the caller's
token 5. -/
def refreshCall1 : GetResult Nat :=
  deviantartGet refreshOutcomes refreshedToken "url1" 5 30 1 5

/-- The caller's next transport call in the same logical operation (the next
page of the same walk, say): its token argument is the caller's token
variable after the first call, which `deviantart_get` — returning only the
parsed body — left untouched. -/
def refreshCall2 : GetResult Nat :=
  deviantartGet (fun _ => HttpOutcome.resp 200 8) refreshedToken "url2" 5 30 1
    (callerTokenAfter 5 refreshCall1)

/-- C1 counterexample: in the 401-then-success scenario the credential
provider is invoked exactly once and exactly one retried request is made
(two attempts in all), and the retried attempt carries the fresh token 99 —
but the caller's token reference still holds the old token 5, so the next
call of the same logical operation is issued with 5, not with the refreshed
99: the claim's final clause fails on the code. -/
theorem token_refresh_caller_stale_cex :
    refreshCall1.refreshCount = 1 ∧ refreshCall1.attempts = 2 ∧
    refreshCall1.result = Except.ok 7 ∧ refreshCall1.tokens = [5, 99] ∧
    refreshedToken 0 = 99 ∧ callerTokenAfter 5 refreshCall1 = 5 ∧
    refreshCall2.tokens[0]? = some 5 ∧ (5 : Nat) ≠ 99 :=
  ⟨rfl, rfl, rfl, rfl, rfl, rfl, rfl, by decide⟩

/-- C1 amended: a deviantart_get call whose first attempt returns 401 and
whose second attempt succeeds performs exactly one get_access_token
invocation and exactly one retried request, and the retried request carries
the refreshed token; the refreshed token however stays local to
deviantart_get — the function returns only the parsed body, so the caller's
token variable is unchanged and subsequent calls of the same logical
operation are issued with the original token. -/
theorem token_refresh_behavior {α : Type} (O : Nat → HttpOutcome α)
    (R : Nat → Nat) (url : String) (M rls st tok : Nat) (b0 b1 : α)
    (code1 : Nat) (h0 : O 0 = HttpOutcome.resp 401 b0)
    (h1 : O 1 = HttpOutcome.resp code1 b1) (hok : code1 < 400) (hM : 2 ≤ M) :
    (deviantartGet O R url M rls st tok).refreshCount = 1 ∧
    (deviantartGet O R url M rls st tok).attempts = 2 ∧
    (deviantartGet O R url M rls st tok).tokens = [tok, R 0] ∧
    (deviantartGet O R url M rls st tok).result = Except.ok b1 ∧
    callerTokenAfter tok (deviantartGet O R url M rls st tok) = tok := by
  obtain ⟨m, rfl⟩ : ∃ m, M = m + 2 := ⟨M - 2, by omega⟩
  have c429 : ¬ code1 = 429 := by omega
  have c401 : ¬ code1 = 401 := by omega
  simp only [deviantartGet, callerTokenAfter]
  simp [dgGo, h0, h1, c429, c401, hok]

/-- Witness for C1's amended claim, at the concrete scenario. -/
theorem token_refresh_behavior_witness :
    (deviantartGet refreshOutcomes refreshedToken "url1" 5 30 1 5).refreshCount = 1 ∧
    (deviantartGet refreshOutcomes refreshedToken "url1" 5 30 1 5).attempts = 2 ∧
    (deviantartGet refreshOutcomes refreshedToken "url1" 5 30 1 5).tokens
      = [5, refreshedToken 0] ∧
    (deviantartGet refreshOutcomes refreshedToken "url1" 5 30 1 5).result
      = Except.ok 7 ∧
    callerTokenAfter 5 (deviantartGet refreshOutcomes refreshedToken "url1" 5 30 1 5)
      = 5 :=
  token_refresh_behavior refreshOutcomes refreshedToken "url1" 5 30 1 5 0 7 200
    (by decide) (by decide) (by decide) (by decide)

/-! ## Ledger lemmas -/

theorem is_subscription_false_of_not_downloaded (db : Ledger) (id : String)
    (h : is_downloaded db id = false) : is_subscription db id = false := by
  unfold is_subscription
  cases hf : db.find? (fun r => r.deviationid == id) with
  | none => rfl
  | some r =>
      have hmem := List.mem_of_find?_eq_some hf
      have hp := List.find?_some hf
      rw [is_downloaded, List.any_eq_false] at h
      exact absurd hp (h r hmem)

theorem applyOp_not_present (db : Ledger) (id : String) (op : LedgerOp)
    (h : is_downloaded db id = false) :
    applyOp db id op = db ++ [opRow id op] := by
  have hc : (db.any fun r => r.deviationid == id) = false := h
  cases op with
  | recordRestricted a t u =>
      simp [applyOp, mark_subscription, insertOrIgnore, opRow, hc]
  | recordDownloaded a t u tags =>
      simp [applyOp, mark_downloaded, insertOrIgnore, opRow, hc]

theorem applyOp_present (db : Ledger) (id : String) (op : LedgerOp)
    (h : is_downloaded db id = true) :
    applyOp db id op = db := by
  have hc : (db.any fun r => r.deviationid == id) = true := h
  cases op with
  | recordRestricted a t u =>
      simp [applyOp, mark_subscription, insertOrIgnore, hc]
  | recordDownloaded a t u tags =>
      simp [applyOp, mark_downloaded, insertOrIgnore, hc]

theorem opRow_deviationid (id : String) (op : LedgerOp) :
    (opRow id op).deviationid = id := by
  cases op <;> rfl

/-! ## C3: idempotent ledger -/

/-- C3: starting from a ledger with no record for the identifier, two
insert-helper calls with the same identifier — mark_downloaded or
mark_subscription in any combination, with possibly different field values on
the second call — leave the ledger equal to the original plus exactly the row
of the FIRST call: the second call is a no-op, and filtering the ledger for
the identifier yields exactly that one row. -/
theorem ledger_idempotent_insert (db : Ledger) (id : String) (op1 op2 : LedgerOp)
    (h : is_downloaded db id = false) :
    applyOp (applyOp db id op1) id op2 = db ++ [opRow id op1] ∧
    (applyOp (applyOp db id op1) id op2).filter (fun r => r.deviationid == id)
      = [opRow id op1] := by
  have h1 : applyOp db id op1 = db ++ [opRow id op1] :=
    applyOp_not_present db id op1 h
  have hpresent : is_downloaded (db ++ [opRow id op1]) id = true := by
    simp [is_downloaded, opRow_deviationid]
  have h2 : applyOp (db ++ [opRow id op1]) id op2 = db ++ [opRow id op1] :=
    applyOp_present _ id op2 hpresent
  rw [h1, h2]
  refine ⟨rfl, ?_⟩
  rw [List.filter_append]
  have hnil : db.filter (fun r => r.deviationid == id) = [] := by
    rw [List.filter_eq_nil_iff]
    rw [is_downloaded, List.any_eq_false] at h
    exact h
  rw [hnil]
  simp [opRow_deviationid]

/-- Witness for C3: an empty ledger, a mark_subscription then a
mark_downloaded with different fields for the same id. -/
theorem ledger_idempotent_insert_witness :
    applyOp (applyOp [] "d1" (LedgerOp.recordRestricted "alice" "t1" (some "u1")))
        "d1" (LedgerOp.recordDownloaded "bob" "t2" (some "u2") ["x"])
      = [] ++ [opRow "d1" (LedgerOp.recordRestricted "alice" "t1" (some "u1"))] ∧
    (applyOp (applyOp [] "d1" (LedgerOp.recordRestricted "alice" "t1" (some "u1")))
        "d1" (LedgerOp.recordDownloaded "bob" "t2" (some "u2") ["x"])).filter
        (fun r => r.deviationid == "d1")
      = [opRow "d1" (LedgerOp.recordRestricted "alice" "t1" (some "u1"))] :=
  ledger_idempotent_insert [] "d1"
    (LedgerOp.recordRestricted "alice" "t1" (some "u1"))
    (LedgerOp.recordDownloaded "bob" "t2" (some "u2") ["x"]) (by decide)

/-! ## C4: restricted write-once -/

/-- C4: once is_subscription(id) holds, processing any payload with that
identifier through save_deviation — under any DOWNLOAD_SUBSCRIPTIONS setting
and any collaborator outcomes — leaves the ledger unchanged, so the record
stays restricted. -/
theorem restricted_write_once (downloadSubs : Bool)
    (metaTags : Except Unit (List String)) (assetOk : Bool) (db : Ledger)
    (artist : String) (d : Deviation)
    (h : is_subscription db d.deviationid = true) :
    (saveDeviation downloadSubs metaTags assetOk db artist d).db = db ∧
    is_subscription (saveDeviation downloadSubs metaTags assetOk db artist d).db
        d.deviationid = true := by
  simp only [saveDeviation]
  rw [if_pos h]
  exact ⟨rfl, h⟩

/-- Witness for C4: a ledger holding d1 as restricted; a premium-free payload
for d1, processed with DOWNLOAD_SUBSCRIPTIONS enabled, changes nothing. -/
theorem restricted_write_once_witness :
    (saveDeviation true (Except.ok ["x"]) true
        [⟨"d1", "alice", "t", some "u", "", 1⟩] "alice"
        ⟨"d1", some "t2", some "u2", false, false, some true, some "src"⟩).db
      = [⟨"d1", "alice", "t", some "u", "", 1⟩] ∧
    is_subscription
        (saveDeviation true (Except.ok ["x"]) true
          [⟨"d1", "alice", "t", some "u", "", 1⟩] "alice"
          ⟨"d1", some "t2", some "u2", false, false, some true, some "src"⟩).db
        "d1" = true :=
  restricted_write_once true (Except.ok ["x"]) true
    [⟨"d1", "alice", "t", some "u", "", 1⟩] "alice"
    ⟨"d1", some "t2", some "u2", false, false, some true, some "src"⟩ (by decide)

theorem is_subscription_append (db : Ledger) (id : String) (row : Row)
    (h : is_downloaded db id = false) (hid : row.deviationid = id) :
    is_subscription (db ++ [row]) id = (row.is_premium == 1) := by
  unfold is_subscription
  rw [List.find?_append]
  have hnone : db.find? (fun r => r.deviationid == id) = none := by
    rw [List.find?_eq_none]
    rw [is_downloaded, List.any_eq_false] at h
    exact h
  rw [hnone]
  simp [hid]

theorem mark_subscription_not_present (db : Ledger) (id artist title : String)
    (url : Option String) (h : is_downloaded db id = false) :
    mark_subscription db id artist title url
      = db ++ [⟨id, artist, title, url, "", 1⟩] := by
  have hc : (db.any fun r => r.deviationid == id) = false := h
  simp [mark_subscription, insertOrIgnore, hc]

/-! ## C6: restricted classification -/

/-- C6: an item payload with premium_content set and no content body,
processed while DOWNLOAD_SUBSCRIPTIONS is disabled and the identifier is not
yet in the ledger, yields exactly one new ledger row — restricted
(is_premium = 1) with empty tags — and the processor returns early: no
metadata fetch, no sidecar file, no asset file, no tagger call. -/
theorem restricted_classification_effects (metaTags : Except Unit (List String))
    (assetOk : Bool) (db : Ledger) (artist : String) (d : Deviation)
    (h1 : d.premium_content = true) (_h2 : d.content = none)
    (h3 : is_downloaded db d.deviationid = false) :
    (saveDeviation false metaTags assetOk db artist d).db
        = db ++ [⟨d.deviationid, artist, d.title.getD "untitled", d.url, "", 1⟩] ∧
    is_subscription (saveDeviation false metaTags assetOk db artist d).db
        d.deviationid = true ∧
    (saveDeviation false metaTags assetOk db artist d).metadataFetched = false ∧
    (saveDeviation false metaTags assetOk db artist d).sidecarWritten = false ∧
    (saveDeviation false metaTags assetOk db artist d).assetWritten = false ∧
    (saveDeviation false metaTags assetOk db artist d).taggerCalled = false := by
  have hsub := is_subscription_false_of_not_downloaded db d.deviationid h3
  have hms := mark_subscription_not_present db d.deviationid artist
    (d.title.getD "untitled") d.url h3
  have hres : saveDeviation false metaTags assetOk db artist d
      = ⟨mark_subscription db d.deviationid artist (d.title.getD "untitled") d.url,
          false, false, false, false⟩ := by
    simp only [saveDeviation]
    rw [if_neg (by simp [hsub]), if_neg (by simp [h3])]
    simp [h1]
  rw [hres]
  refine ⟨hms, ?_, rfl, rfl, rfl, rfl⟩
  rw [hms, is_subscription_append db d.deviationid _ h3 rfl]
  rfl

/-- Witness for C6: a fresh ledger and a premium payload with no content. -/
theorem restricted_classification_effects_witness :
    (saveDeviation false (Except.ok ["x"]) true [] "alice"
        ⟨"d1", some "t", some "u", true, false, none, none⟩).db
      = [] ++ [⟨"d1", "alice", "t", some "u", "", 1⟩] ∧
    is_subscription
        (saveDeviation false (Except.ok ["x"]) true [] "alice"
          ⟨"d1", some "t", some "u", true, false, none, none⟩).db "d1" = true ∧
    (saveDeviation false (Except.ok ["x"]) true [] "alice"
        ⟨"d1", some "t", some "u", true, false, none, none⟩).metadataFetched = false ∧
    (saveDeviation false (Except.ok ["x"]) true [] "alice"
        ⟨"d1", some "t", some "u", true, false, none, none⟩).sidecarWritten = false ∧
    (saveDeviation false (Except.ok ["x"]) true [] "alice"
        ⟨"d1", some "t", some "u", true, false, none, none⟩).assetWritten = false ∧
    (saveDeviation false (Except.ok ["x"]) true [] "alice"
        ⟨"d1", some "t", some "u", true, false, none, none⟩).taggerCalled = false :=
  restricted_classification_effects (Except.ok ["x"]) true [] "alice"
    ⟨"d1", some "t", some "u", true, false, none, none⟩ rfl rfl (by decide)

/-! ## Run-controller lemmas -/

theorem mainLoopGo_indices (fails : Nat → Bool) (ci : Nat) :
    ∀ (l : List String) (idx off : Nat),
      (mainLoopGo fails ci l idx off).map (fun e => e.1)
        = List.range' idx l.length := by
  intro l
  induction l with
  | nil => intro idx off; rfl
  | cons a rest ih =>
      intro idx off
      simp only [mainLoopGo, List.map_cons, List.length_cons]
      rw [List.range'_succ idx rest.length 1]
      rw [ih (idx + 1) (if fails idx then off else 0)]

theorem mainLoopGo_length (fails : Nat → Bool) (ci : Nat) :
    ∀ (l : List String) (idx off : Nat),
      (mainLoopGo fails ci l idx off).length = l.length := by
  intro l
  induction l with
  | nil => intro idx off; rfl
  | cons a rest ih =>
      intro idx off
      simp only [mainLoopGo, List.length_cons]
      rw [ih (idx + 1) (if fails idx then off else 0)]

theorem mainLoopGo_offsets (fails : Nat → Bool) (ci : Nat) :
    ∀ (l : List String) (idx off : Nat),
      ∀ e ∈ mainLoopGo fails ci l idx off, e.1 ≠ ci → e.2.2 = 0 := by
  intro l
  induction l with
  | nil => intro idx off e he; exact absurd he (List.not_mem_nil e)
  | cons a rest ih =>
      intro idx off e he hne
      simp only [mainLoopGo, List.mem_cons] at he
      rcases he with he | he
      · subst he
        simp only at hne ⊢
        rw [if_neg hne]
      · exact ih (idx + 1) (if fails idx then off else 0) e he hne

/-! ## C5: resume correctness -/

/-- C5: with a persisted checkpoint (creator_index = 2, page_offset = 10) and
a creator list of length at least 3 (written x :: y :: z :: rest), the run
processes exactly the creators at indices 2, 3, ..., in order — no creator at
index below 2 — the item walk of the creator at index 2 (that is, z) begins
at offset 10, and every other processed creator's item walk begins at
offset 0. -/
theorem resume_correctness (x y z : String) (rest : List String)
    (fails : Nat → Bool) :
    (mainWalks (x :: y :: z :: rest) fails 2 10).map (fun e => e.1)
        = List.range' 2 (rest.length + 1) ∧
    (mainWalks (x :: y :: z :: rest) fails 2 10).head? = some (2, z, 10) ∧
    (∀ e ∈ mainWalks (x :: y :: z :: rest) fails 2 10,
      e.1 ≠ 2 → e.2.2 = 0) := by
  refine ⟨?_, ?_, ?_⟩
  · have h := mainLoopGo_indices fails 2 (z :: rest) 2 10
    simpa [mainWalks] using h
  · simp [mainWalks, mainLoopGo]
  · intro e he hne
    exact mainLoopGo_offsets fails 2 (z :: rest) 2 10 e (by simpa [mainWalks] using he) hne

/-- Witness for C5 on the list ["a", "b", "c", "d"] with the walk of creator
index 2 failing: indices 2 and 3 are processed, creator "c" starts at
offset 10, creator "d" at offset 0. -/
theorem resume_correctness_witness :
    (mainWalks ["a", "b", "c", "d"] (fun i => i = 2) 2 10).map (fun e => e.1)
        = List.range' 2 2 ∧
    (mainWalks ["a", "b", "c", "d"] (fun i => i = 2) 2 10).head? = some (2, "c", 10) ∧
    (∀ e ∈ mainWalks ["a", "b", "c", "d"] (fun i => i = 2) 2 10,
      e.1 ≠ 2 → e.2.2 = 0) :=
  resume_correctness "a" "b" "c" ["d"] (fun i => i = 2)

/-! ## C8: per-creator error isolation -/

/-- C8: when credential acquisition and creator enumeration both succeed,
main completes normally whatever the per-creator walks do — every creator
from the start index on is processed in order even when earlier walks raise
(the exception is caught inside the loop), and every creator after the first
starts at offset 0; a credential failure or a creator-enumeration failure, on
the other hand, propagates out of main. -/
theorem per_creator_error_isolation (t : Nat) (artists : List String)
    (fails : Nat → Bool) (ci off : Nat) (e1 e2 : Unit)
    (artistsR : Except Unit (List String)) :
    mainRun (.ok t) (.ok artists) fails ci off
        = .ok (mainWalks artists fails ci off) ∧
    (mainWalks artists fails ci off).map (fun e => e.1)
        = List.range' ci (artists.length - ci) ∧
    (∀ e ∈ mainWalks artists fails ci off, e.1 ≠ ci → e.2.2 = 0) ∧
    mainRun (.error e1) artistsR fails ci off = .error e1 ∧
    mainRun (.ok t) (.error e2) fails ci off = .error e2 := by
  refine ⟨rfl, ?_, ?_, rfl, rfl⟩
  · have h := mainLoopGo_indices fails ci (artists.drop ci) ci off
    rw [List.length_drop] at h
    exact h
  · intro e he hne
    exact mainLoopGo_offsets fails ci (artists.drop ci) ci off e he hne

/-- Witness for C8: two creators, the first walk failing; the run still
returns normally and processes both creators, the second at offset 0. -/
theorem per_creator_error_isolation_witness :
    mainRun (.ok 5) (.ok ["a", "b"]) (fun _ => true) 0 3
        = .ok (mainWalks ["a", "b"] (fun _ => true) 0 3) ∧
    (mainWalks ["a", "b"] (fun _ => true) 0 3).map (fun e => e.1)
        = List.range' 0 2 ∧
    (∀ e ∈ mainWalks ["a", "b"] (fun _ => true) 0 3, e.1 ≠ 0 → e.2.2 = 0) ∧
    mainRun (.error ()) (.ok ["a", "b"]) (fun _ => true) 0 3 = .error () ∧
    mainRun (.ok 5) (.error ()) (fun _ => true) 0 3 = .error () := by
  have h := per_creator_error_isolation 5 ["a", "b"] (fun _ => true) 0 3 () ()
    (.ok ["a", "b"])
  simpa using h

/-! ## C7: walker termination on page exhaustion -/

/-- A server behaviour for the followed-creators walker: the first request
returns an empty batch that still declares more results, the second request
ends the listing. -/
def emptyMorePages : Nat → Nat → Page String :=
  fun k _ => if k = 0 then ⟨[], true, 24⟩ else ⟨[], false, 0⟩

/-- C7 counterexample: the followed-creators enumeration
(get_followed_artists) has no empty-batch stop — its loop checks only
has_more. Against a server whose first page is an empty batch with
has_more true, the walker requests a further page: two requests are made,
refuting the claim that both walker instantiations stop on an empty batch
without requesting a further page. -/
theorem walker_empty_batch_cex :
    (emptyMorePages 0 0).results = [] ∧
    (emptyMorePages 0 0).has_more = true ∧
    (getFollowedArtists emptyMorePages 5).2 = 2 :=
  ⟨rfl, rfl, rfl⟩

/-- C7 amended: the per-creator gallery walk stops both on an empty batch and
on has_more false, in each case without requesting a further page; the
followed-creators enumeration stops only when has_more is falsy (then also
without a further request) — an empty batch alone does not stop it. -/
theorem walker_exhaustion_behavior {β : Type} (pages qpages : Nat → Nat → Page β)
    (fuel off : Nat) :
    ((pages 0 0).has_more = false → (getFollowedArtists pages (fuel + 1)).2 = 1) ∧
    ((qpages 0 off).results.isEmpty = true →
      (galleryGo qpages (fuel + 1) 0 off).2 = 1) ∧
    ((qpages 0 off).has_more = false →
      (galleryGo qpages (fuel + 1) 0 off).2 = 1) := by
  refine ⟨?_, ?_, ?_⟩
  · intro h
    simp [getFollowedArtists, gfaGo, h]
  · intro h
    simp [galleryGo, h]
  · intro h
    by_cases he : (qpages 0 off).results.isEmpty
    · simp [galleryGo, he]
    · simp [galleryGo, he, h]

/-- Witness for C7's amended claim: a server ending the listing at once makes
each walker issue exactly one request. -/
theorem walker_exhaustion_behavior_witness :
    (getFollowedArtists (fun _ _ => (⟨[], false, 0⟩ : Page String)) 3).2 = 1 ∧
    (galleryGo (fun _ _ => (⟨[], false, 0⟩ : Page String)) 3 0 7).2 = 1 := by
  have h := walker_exhaustion_behavior (fun _ _ => (⟨[], false, 0⟩ : Page String))
    (fun _ _ => (⟨[], false, 0⟩ : Page String)) 2 7
  exact ⟨h.1 rfl, h.2.2 rfl⟩

/-! ## C9: init_db fails on a fresh database -/

/-- C9: opening the ledger store on a fresh (empty) database fails — init_db
runs the ALTER TABLE migration before CREATE TABLE IF NOT EXISTS, so with no
downloads table the ALTER raises the no-such-table operational error, whose
message is not the duplicate-column one, and it is re-raised; init_db opens
successfully exactly when the downloads table already exists. -/
theorem init_db_fresh_database_fails :
    init_db ⟨false, false⟩ = .error SqlError.noSuchTable ∧
    (∀ s : DbState, (init_db s).isOk = s.tableExists) := by
  refine ⟨rfl, ?_⟩
  intro s
  obtain ⟨t, c⟩ := s
  cases t <;> cases c <;> rfl

end Downloader
